import Mathlib

/-!
# Verification of the Cold Pressor experiment app core (`src/coldpress.py`)

Shallow embedding of the data-entry state machine (`add_data`, `reset_data`)
and the statistical routine (`perform_ttest`) of `coldpress.py`, together
with theorems checking the natural-language specification against it.

Modelling conventions:
* The session state (`st.session_state.data` dataframe plus
  `st.session_state.counter`) is a `Store` record; dataframe rows are `Obs`
  records kept in insertion order.
* Measurements are exact rationals (`ℚ`); the statistics that involve a
  square root or the Student-t tail live in `ℝ`.
* A float `NaN` (which in this program arises only from numpy's
  ddof=1 variance of a length-1 array, and propagates to the t statistic
  and p-value) is modelled as `Option.none`.
* `scipy.stats.ttest_ind(a, b, equal_var=False)` is not part of the
  repository; it is embedded by its documented/implemented Welch algorithm:
  sample variances with ddof=1, `vn1 = v1/n1`, `vn2 = v2/n2`,
  `df = (vn1+vn2)^2 / (vn1^2/(n1-1) + vn2^2/(n2-1))` with the `NaN → 1`
  fallback scipy applies when `vn1 + vn2 = 0`,
  `t = (m1-m2)/sqrt(vn1+vn2)`, and two-sided
  `p = 2 * sf(|t|)` for the Student t survival function `sf` with `df`
  degrees of freedom.
-/

open MeasureTheory

/-- One dataframe row: `Deltagare` (id), `Kön` (gender label), `Tid (s)`. -/
structure Obs where
  id : ℕ
  gender : String
  time : ℚ
  deriving DecidableEq, Repr

/-- The session state: the ordered rows and the `counter` for the next id. -/
structure Store where
  data : List Obs
  counter : ℕ
  deriving DecidableEq, Repr

/-- The initial session state: empty dataframe, counter 1
(`coldpress.py` lines 31–35). -/
def emptyStore : Store := ⟨[], 1⟩

/-- Embedding of `add_data` (`coldpress.py` lines 38–53).
Validation: rejects iff `gender == "" or time_sec < 0 or time_sec > 300`,
leaving the state untouched; otherwise appends a row with
`Deltagare = counter`, increments the counter.  Returns the new state and
`some` stored observation on success, the old state and `none` on
rejection. -/
def add_data (s : Store) (gender : String) (time_sec : ℚ) : Store × Option Obs :=
  if gender = "" ∨ time_sec < 0 ∨ time_sec > 300 then
    (s, none)
  else
    let o : Obs := ⟨s.counter, gender, time_sec⟩
    (⟨s.data ++ [o], s.counter + 1⟩, some o)

/-- Embedding of `reset_data` (`coldpress.py` lines 56–61): fresh empty
dataframe, counter back to 1. -/
def reset_data (_ : Store) : Store := ⟨[], 1⟩

/-- Run a sequence of `add_data` calls (the app's submit button repeatedly);
a rejected submission leaves the state unchanged, as in the app. -/
def addAll (s : Store) (l : List (String × ℚ)) : Store :=
  l.foldl (fun st p => (add_data st p.1 p.2).1) s

/-- `ndarray.mean()`: arithmetic mean (0 on an empty array cannot arise:
every use is guarded by a non-emptiness check). -/
def meanQ (xs : List ℚ) : ℚ := xs.sum / xs.length

/-- Sum of squared deviations from the mean, shared by both variances. -/
def sqDevSum (xs : List ℚ) : ℚ := (xs.map (fun x => (x - meanQ xs) ^ 2)).sum

/-- `ndarray.std()` squared with numpy's default `ddof=0`: divisor `n`.
This is what `male_data.std()` / `female_data.std()` compute on lines
87–88 of `coldpress.py` (numpy arrays, not pandas Series). -/
def popVar (xs : List ℚ) : ℚ := sqDevSum xs / xs.length

/-- `ndarray.std()` itself: square root of the `ddof=0` variance. -/
noncomputable def npStd (xs : List ℚ) : ℝ := Real.sqrt (popVar xs)

/-- numpy variance with `ddof=1` (Bessel), as used inside
`scipy.stats.ttest_ind`: `NaN` (here `none`) when `n < 2`. -/
def sampleVar (xs : List ℚ) : Option ℚ :=
  if xs.length < 2 then none
  else some (sqDevSum xs / ((xs.length : ℚ) - 1))

/-- Density of the Student t distribution with `ν` degrees of freedom. -/
noncomputable def studentPDF (ν x : ℝ) : ℝ :=
  Real.Gamma ((ν + 1) / 2) / (Real.sqrt (ν * Real.pi) * Real.Gamma (ν / 2)) *
    Real.rpow (1 + x ^ 2 / ν) (-((ν + 1) / 2))

/-- Survival function (upper tail probability) of the Student t
distribution with `ν` degrees of freedom. -/
noncomputable def studentSF (ν x : ℝ) : ℝ := ∫ t in Set.Ioi x, studentPDF ν t

/-- Embedding of `scipy.stats.ttest_ind(xs, ys, equal_var=False)` (line 82
of `coldpress.py`), per scipy's documented Welch algorithm: `ddof=1`
variances, Welch–Satterthwaite degrees of freedom with scipy's `NaN → 1`
fallback (the `0/0` case `vn1 + vn2 = 0`), `t = (m1-m2)/sqrt(vn1+vn2)`,
two-sided `p = 2 * sf(|t|)`.  A `NaN` variance (a length-1 sample)
propagates to `NaN` t statistic and p-value, modelled as `none`. -/
noncomputable def ttest_ind_welch (xs ys : List ℚ) : Option ℝ × Option ℝ :=
  match sampleVar xs, sampleVar ys with
  | some v1, some v2 =>
      let n1 : ℚ := xs.length
      let n2 : ℚ := ys.length
      let vn1 : ℚ := v1 / n1
      let vn2 : ℚ := v2 / n2
      let df : ℚ := if vn1 + vn2 = 0 then 1
        else (vn1 + vn2) ^ 2 / (vn1 ^ 2 / (n1 - 1) + vn2 ^ 2 / (n2 - 1))
      let t : ℝ := ((meanQ xs : ℝ) - (meanQ ys : ℝ)) / Real.sqrt ((vn1 + vn2 : ℚ))
      (some t, some (2 * studentSF (df : ℝ) |t|))
  | _, _ => (none, none)

/-- Per-group entry of the `stats_dict` built on lines 90–93:
`Medelvärde`, `Standardavvikelse`, `Antal`. -/
structure GroupStats where
  mean : ℚ
  std : ℝ
  count : ℕ

/-- The four values `perform_ttest` returns on success:
`t_stat, p_val, stats_dict, data_dict`. -/
structure TTestResult where
  t_stat : Option ℝ
  p_val : Option ℝ
  manStats : GroupStats
  kvinnaStats : GroupStats
  manData : List ℚ
  kvinnaData : List ℚ

/-- Line 73: `male_data = df[df["Kön"] == "Man"]["Tid (s)"].values`. -/
def male_data (df : List Obs) : List ℚ :=
  (df.filter (fun o => o.gender == "Man")).map Obs.time

/-- Line 74: `female_data = df[df["Kön"] == "Kvinna"]["Tid (s)"].values`. -/
def female_data (df : List Obs) : List ℚ :=
  (df.filter (fun o => o.gender == "Kvinna")).map Obs.time

/-- Embedding of `perform_ttest` (`coldpress.py` lines 64–93).
Returns `none` for the two warning paths (`len(df) < 2`, or a gender with
no rows); otherwise the Welch test result plus the per-group statistics
and raw values. -/
noncomputable def perform_ttest (df : List Obs) : Option TTestResult :=
  if df.length < 2 then none
  else if (male_data df).length = 0 ∨ (female_data df).length = 0 then none
  else
    let tp := ttest_ind_welch (male_data df) (female_data df)
    some ⟨tp.1, tp.2,
      ⟨meanQ (male_data df), npStd (male_data df), (male_data df).length⟩,
      ⟨meanQ (female_data df), npStd (female_data df), (female_data df).length⟩,
      male_data df, female_data df⟩

/-- The spec's per-group variance: Bessel correction, divisor `n − 1`
(spec §4.2 step 4: "sample standard deviation using Bessel's correction"). -/
def besselVar (xs : List ℚ) : ℚ := sqDevSum xs / ((xs.length : ℚ) - 1)

/-- The spec's per-group standard deviation (sample, `ddof=1`), stated
from the spec's words for comparison with what the code reports. -/
noncomputable def sampleStdSpec (xs : List ℚ) : ℝ := Real.sqrt (besselVar xs)

/-- The spec's Welch statistic `t = (mean1 − mean2) / sqrt(var1/n1 + var2/n2)`
(spec §4.2 step 5), stated from the spec's words. -/
noncomputable def welchT_spec (xs ys : List ℚ) : ℝ :=
  ((meanQ xs : ℝ) - (meanQ ys : ℝ)) /
    Real.sqrt ((besselVar xs / xs.length + besselVar ys / ys.length : ℚ))

/-- The spec's Welch–Satterthwaite degrees of freedom
`df = (var1/n1 + var2/n2)^2 / ((var1/n1)^2/(n1−1) + (var2/n2)^2/(n2−1))`
(spec §4.2 step 5), stated from the spec's words. -/
def welchDF_spec (xs ys : List ℚ) : ℚ :=
  (besselVar xs / xs.length + besselVar ys / ys.length) ^ 2 /
    ((besselVar xs / xs.length) ^ 2 / ((xs.length : ℚ) - 1) +
      (besselVar ys / ys.length) ^ 2 / ((ys.length : ℚ) - 1))

/-- The spec's two-sided p-value: tail probability of `|t|` under the
Student t distribution with Welch–Satterthwaite degrees of freedom
(`P(|T| ≥ |t|) = 2 · P(T ≥ |t|)` by the symmetry of the distribution). -/
noncomputable def pValue_spec (xs ys : List ℚ) : ℝ :=
  2 * studentSF (welchDF_spec xs ys : ℝ) |welchT_spec xs ys|

/-- Exchange the two recognized group labels of one observation,
leaving its measurement (and any unrecognized label) unchanged. -/
def swapObs (o : Obs) : Obs :=
  { o with gender :=
      if o.gender = "Man" then "Kvinna"
      else if o.gender = "Kvinna" then "Man"
      else o.gender }

/-- Spec §8 Scenario A: the store after appending
(Man, 45), (Man, 50), (Kvinna, 80), (Kvinna, 90) to an empty store. -/
def scenarioA : Store :=
  addAll emptyStore [("Man", 45), ("Man", 50), ("Kvinna", 80), ("Kvinna", 90)]

/-- Spec §8 Scenario D input: three observations appended to an empty store. -/
def scenarioD3 : Store :=
  addAll emptyStore [("Man", 10), ("Kvinna", 20), ("Man", 30)]

/-! ## Theorems about the store operations -/

/-- C3: for every store state and every input with a recognized group label
and value in `[0, 300]`, `add_data` succeeds, the stored observation's id
equals the counter value before the call, the counter increases by 1, and
the data sequence grows by exactly one element, appended last. -/
theorem add_data_valid_append (s : Store) (g : String) (v : ℚ)
    (hg : g = "Man" ∨ g = "Kvinna") (h0 : 0 ≤ v) (h300 : v ≤ 300) :
    (add_data s g v).2 = some ⟨s.counter, g, v⟩ ∧
    (add_data s g v).1.data = s.data ++ [⟨s.counter, g, v⟩] ∧
    (add_data s g v).1.counter = s.counter + 1 ∧
    (add_data s g v).1.data.length = s.data.length + 1 := by
  have hne : ¬(g = "" ∨ v < 0 ∨ v > 300) := by
    push_neg
    refine ⟨?_, h0, h300⟩
    rcases hg with h | h <;> simp [h]
  simp [add_data, hne]

/-- Witness for `add_data_valid_append` at the empty store, `("Man", 42)`. -/
theorem add_data_valid_append_witness :
    ("Man" = "Man" ∨ "Man" = "Kvinna") ∧ (0 : ℚ) ≤ 42 ∧ (42 : ℚ) ≤ 300 ∧
    ((add_data emptyStore "Man" 42).2 = some ⟨emptyStore.counter, "Man", 42⟩ ∧
     (add_data emptyStore "Man" 42).1.data
        = emptyStore.data ++ [⟨emptyStore.counter, "Man", 42⟩] ∧
     (add_data emptyStore "Man" 42).1.counter = emptyStore.counter + 1 ∧
     (add_data emptyStore "Man" 42).1.data.length = emptyStore.data.length + 1) :=
  ⟨Or.inl rfl, by norm_num, by norm_num,
    add_data_valid_append emptyStore "Man" 42 (Or.inl rfl) (by norm_num) (by norm_num)⟩

/-- C4: an input with value outside `[0, 300]` or an empty group label is
rejected with the error message, and the state (data and counter) is
left exactly as it was. -/
theorem add_data_invalid_reject (s : Store) (g : String) (v : ℚ)
    (h : v < 0 ∨ v > 300 ∨ g = "") :
    (add_data s g v).1 = s ∧ (add_data s g v).2 = none := by
  have hc : g = "" ∨ v < 0 ∨ v > 300 := by tauto
  simp [add_data, hc]

/-- Witness for `add_data_invalid_reject` at the empty store, `("Man", -1)`. -/
theorem add_data_invalid_reject_witness :
    ((-1 : ℚ) < 0 ∨ (-1 : ℚ) > 300 ∨ "Man" = "") ∧
    ((add_data emptyStore "Man" (-1)).1 = emptyStore ∧
     (add_data emptyStore "Man" (-1)).2 = none) :=
  ⟨Or.inl (by norm_num),
    add_data_invalid_reject emptyStore "Man" (-1) (Or.inl (by norm_num))⟩

/-- C5 counterexample: `add_data` does not reject a non-empty unrecognized
group label — `("Annat", 10)` is accepted and stored, contradicting the
claim that it fails with a validation error leaving the store unchanged. -/
theorem add_data_unrecognized_accepted :
    (add_data emptyStore "Annat" 10).2 = some ⟨1, "Annat", 10⟩ ∧
    (add_data emptyStore "Annat" 10).1.data = [⟨1, "Annat", 10⟩] := by
  constructor <;> decide

/-- C5 (amended): validation checks only that the label is non-empty and the
value is in `[0, 300]`; a non-empty label outside the two recognized ones
is accepted and appended like any other. -/
theorem add_data_ignores_group_membership (s : Store) (g : String) (v : ℚ)
    (hne : g ≠ "") (hm : g ≠ "Man") (hk : g ≠ "Kvinna")
    (h0 : 0 ≤ v) (h300 : v ≤ 300) :
    (add_data s g v).2 = some ⟨s.counter, g, v⟩ ∧
    (add_data s g v).1.data = s.data ++ [⟨s.counter, g, v⟩] ∧
    (add_data s g v).1.counter = s.counter + 1 := by
  have hc : ¬(g = "" ∨ v < 0 ∨ v > 300) := by
    push_neg
    exact ⟨hne, h0, h300⟩
  simp [add_data, hc]

/-- Witness for `add_data_ignores_group_membership` at `("Annat", 10)`. -/
theorem add_data_ignores_group_membership_witness :
    ("Annat" ≠ "" ∧ "Annat" ≠ "Man" ∧ "Annat" ≠ "Kvinna" ∧
      (0 : ℚ) ≤ 10 ∧ (10 : ℚ) ≤ 300) ∧
    ((add_data emptyStore "Annat" 10).2 = some ⟨emptyStore.counter, "Annat", 10⟩ ∧
     (add_data emptyStore "Annat" 10).1.data
        = emptyStore.data ++ [⟨emptyStore.counter, "Annat", 10⟩] ∧
     (add_data emptyStore "Annat" 10).1.counter = emptyStore.counter + 1) :=
  ⟨⟨by decide, by decide, by decide, by norm_num, by norm_num⟩,
    add_data_ignores_group_membership emptyStore "Annat" 10
      (by decide) (by decide) (by decide) (by norm_num) (by norm_num)⟩

/-- C6: `reset_data` always empties the data and resets the counter to 1,
from any state; and in spec §8 Scenario D (three appends, a reset, then one
append) the store reached the three-element, counter-4 state, and the
observation appended after the reset gets id 1, not 4. -/
theorem reset_data_clears_and_scenarioD :
    (∀ s : Store, (reset_data s).data = [] ∧ (reset_data s).counter = 1) ∧
    scenarioD3.data.length = 3 ∧ scenarioD3.counter = 4 ∧
    (add_data (reset_data scenarioD3) "Man" 5).2 = some ⟨1, "Man", 5⟩ := by
  refine ⟨fun s => ⟨rfl, rfl⟩, by decide, by decide, by decide⟩

/-! ## Theorems about the statistical routine -/

/-- C7: `perform_ttest` reports insufficient data exactly when fewer than 2
rows exist in total or one of the two recognized groups has no rows;
otherwise it returns a result. -/
theorem perform_ttest_none_iff (l : List Obs) :
    perform_ttest l = none ↔
      l.length < 2 ∨ (male_data l).length = 0 ∨ (female_data l).length = 0 := by
  unfold perform_ttest
  split_ifs with h1 h2
  · simp [h1]
  · exact iff_of_true rfl (Or.inr h2)
  · refine iff_of_false (by simp) ?_
    rintro (h | h | h)
    · exact h1 h
    · exact h2 (Or.inl h)
    · exact h2 (Or.inr h)

/-- Helper: the value `perform_ttest` returns when neither guard fires. -/
theorem perform_ttest_eq_some (l : List Obs) (h1 : ¬l.length < 2)
    (h2 : ¬((male_data l).length = 0 ∨ (female_data l).length = 0)) :
    perform_ttest l = some ⟨(ttest_ind_welch (male_data l) (female_data l)).1,
      (ttest_ind_welch (male_data l) (female_data l)).2,
      ⟨meanQ (male_data l), npStd (male_data l), (male_data l).length⟩,
      ⟨meanQ (female_data l), npStd (female_data l), (female_data l).length⟩,
      male_data l, female_data l⟩ := by
  unfold perform_ttest
  rw [if_neg h1, if_neg h2]

/-- C1 (amended): whenever `perform_ttest` returns a result, each group's
reported standard deviation is the population standard deviation — square
root of the squared-deviation sum divided by `n`, not by `n − 1`
(numpy's `ndarray.std()` default `ddof=0`). -/
theorem perform_ttest_std_population (l : List Obs) :
    (perform_ttest l).elim True (fun r =>
      r.manStats.std
          = Real.sqrt ((sqDevSum (male_data l) / (male_data l).length : ℚ)) ∧
      r.kvinnaStats.std
          = Real.sqrt ((sqDevSum (female_data l) / (female_data l).length : ℚ))) := by
  by_cases h1 : l.length < 2
  · unfold perform_ttest
    rw [if_pos h1]
    trivial
  · by_cases h2 : (male_data l).length = 0 ∨ (female_data l).length = 0
    · unfold perform_ttest
      rw [if_neg h1, if_pos h2]
      trivial
    · rw [perform_ttest_eq_some l h1 h2]
      exact ⟨rfl, rfl⟩

/-- C1 counterexample: on Scenario A's store, the "Man" group has the two
values 45 and 50, and the reported standard deviation is the population
one, `sqrt(25/4)`, not the Bessel-corrected sample standard deviation
`sqrt(25/2)` that the claim specifies. -/
theorem perform_ttest_std_not_bessel :
    (perform_ttest scenarioA.data).map (fun r => r.manStats.count) = some 2 ∧
    (perform_ttest scenarioA.data).map (fun r => r.manStats.std) ≠
      some (sampleStdSpec (male_data scenarioA.data)) := by
  have hm : male_data scenarioA.data = [45, 50] := by decide
  have h1 : ¬scenarioA.data.length < 2 := by decide
  have h2 : ¬((male_data scenarioA.data).length = 0 ∨
      (female_data scenarioA.data).length = 0) := by decide
  rw [perform_ttest_eq_some _ h1 h2, hm]
  refine ⟨rfl, ?_⟩
  have hlt : npStd [45, 50] < sampleStdSpec [45, 50] := by
    have e1 : ((popVar [45, 50] : ℚ) : ℝ) = 25 / 4 := by
      have : popVar [45, 50] = 25 / 4 := by norm_num [popVar, sqDevSum, meanQ]
      rw [this]; norm_num
    have e2 : ((besselVar [45, 50] : ℚ) : ℝ) = 25 / 2 := by
      have : besselVar [45, 50] = 25 / 2 := by norm_num [besselVar, sqDevSum, meanQ]
      rw [this]; norm_num
    rw [npStd, sampleStdSpec, e1, e2]
    exact Real.sqrt_lt_sqrt (by norm_num) (by norm_num)
  simp only [Option.map_some']
  exact fun hcontra => absurd (Option.some.inj hcontra) (ne_of_lt hlt)

/-- C9: on Scenario A's store (four appends to an empty store),
`perform_ttest` succeeds with per-group means 47.5 and 85.0, per-group
counts 2 and 2, and a t statistic and p-value that are actual numbers
(`isSome`: not the `none` that models `NaN`). -/
theorem scenarioA_compute :
    (perform_ttest scenarioA.data).map
        (fun r => (r.manStats.mean, r.kvinnaStats.mean, r.manStats.count,
          r.kvinnaStats.count, r.t_stat.isSome, r.p_val.isSome))
      = some (95 / 2, 85, 2, 2, true, true) := by
  have hm : male_data scenarioA.data = [45, 50] := by decide
  have hf : female_data scenarioA.data = [80, 90] := by decide
  have h1 : ¬scenarioA.data.length < 2 := by decide
  have h2 : ¬((male_data scenarioA.data).length = 0 ∨
      (female_data scenarioA.data).length = 0) := by decide
  have hvm : sampleVar [45, 50] = some (25 / 2) := by
    norm_num [sampleVar, sqDevSum, meanQ]
  have hvf : sampleVar [80, 90] = some 50 := by
    norm_num [sampleVar, sqDevSum, meanQ]
  have htt1 : (ttest_ind_welch [45, 50] [80, 90]).1.isSome = true := by
    unfold ttest_ind_welch
    rw [hvm, hvf]
    rfl
  have htt2 : (ttest_ind_welch [45, 50] [80, 90]).2.isSome = true := by
    unfold ttest_ind_welch
    rw [hvm, hvf]
    rfl
  have e1 : meanQ [45, 50] = 95 / 2 := by norm_num [meanQ]
  have e2 : meanQ [80, 90] = 85 := by norm_num [meanQ]
  rw [perform_ttest_eq_some _ h1 h2, hm, hf]
  simp only [Option.map_some']
  rw [e1, e2, htt1, htt2]
  rfl

/-- Helper: numpy's `ddof=0` standard deviation of a single value is 0. -/
theorem npStd_singleton (v : ℚ) : npStd [v] = 0 := by
  simp [npStd, popVar, sqDevSum, meanQ]

/-- Helper: a `NaN` first-group variance (fewer than 2 members) makes the
whole t-test `NaN`. -/
theorem ttest_ind_welch_nan_left (xs ys : List ℚ) (h : xs.length < 2) :
    ttest_ind_welch xs ys = (none, none) := by
  have hx : sampleVar xs = none := by rw [sampleVar, if_pos h]
  unfold ttest_ind_welch
  rw [hx]

/-- Helper: a `NaN` second-group variance makes the whole t-test `NaN`. -/
theorem ttest_ind_welch_nan_right (xs ys : List ℚ) (h : ys.length < 2) :
    ttest_ind_welch xs ys = (none, none) := by
  have hy : sampleVar ys = none := by rw [sampleVar, if_pos h]
  unfold ttest_ind_welch
  rw [hy]
  cases hx : sampleVar xs <;> rfl

/-- C10: with at least 2 rows, both groups present, and some group a
singleton, `perform_ttest` still returns a result; the singleton group's
reported standard deviation is 0 and the t statistic and p-value are the
`NaN` (`none`) that the ddof=1 variance of a singleton propagates. -/
theorem perform_ttest_singleton_nan (l : List Obs)
    (h2 : 2 ≤ l.length)
    (hm : (male_data l).length ≠ 0)
    (hf : (female_data l).length ≠ 0)
    (h1 : (male_data l).length = 1 ∨ (female_data l).length = 1) :
    (perform_ttest l).isSome = true ∧
    (perform_ttest l).elim True (fun r =>
      r.t_stat = none ∧ r.p_val = none ∧
      ((male_data l).length = 1 → r.manStats.std = 0) ∧
      ((female_data l).length = 1 → r.kvinnaStats.std = 0)) := by
  have hn1 : ¬l.length < 2 := not_lt.mpr h2
  have hn2 : ¬((male_data l).length = 0 ∨ (female_data l).length = 0) := by
    rintro (h | h)
    exacts [hm h, hf h]
  have htt : ttest_ind_welch (male_data l) (female_data l) = (none, none) := by
    rcases h1 with h | h
    · exact ttest_ind_welch_nan_left _ _ (by omega)
    · exact ttest_ind_welch_nan_right _ _ (by omega)
  rw [perform_ttest_eq_some l hn1 hn2]
  refine ⟨rfl, ?_, ?_, ?_, ?_⟩
  · show (ttest_ind_welch (male_data l) (female_data l)).1 = none
    rw [htt]
  · show (ttest_ind_welch (male_data l) (female_data l)).2 = none
    rw [htt]
  · intro hone
    obtain ⟨v, hv⟩ := List.length_eq_one.mp hone
    show npStd (male_data l) = 0
    rw [hv, npStd_singleton]
  · intro hone
    obtain ⟨v, hv⟩ := List.length_eq_one.mp hone
    show npStd (female_data l) = 0
    rw [hv, npStd_singleton]

/-- Witness for `perform_ttest_singleton_nan` at the three rows
(Man, 10), (Kvinna, 20), (Kvinna, 30). -/
theorem perform_ttest_singleton_nan_witness :
    (2 ≤ ([⟨1, "Man", 10⟩, ⟨2, "Kvinna", 20⟩, ⟨3, "Kvinna", 30⟩] : List Obs).length ∧
     (male_data [⟨1, "Man", 10⟩, ⟨2, "Kvinna", 20⟩, ⟨3, "Kvinna", 30⟩]).length ≠ 0 ∧
     (female_data [⟨1, "Man", 10⟩, ⟨2, "Kvinna", 20⟩, ⟨3, "Kvinna", 30⟩]).length ≠ 0 ∧
     ((male_data [⟨1, "Man", 10⟩, ⟨2, "Kvinna", 20⟩, ⟨3, "Kvinna", 30⟩]).length = 1 ∨
      (female_data [⟨1, "Man", 10⟩, ⟨2, "Kvinna", 20⟩, ⟨3, "Kvinna", 30⟩]).length = 1)) ∧
    ((perform_ttest [⟨1, "Man", 10⟩, ⟨2, "Kvinna", 20⟩, ⟨3, "Kvinna", 30⟩]).isSome = true ∧
     (perform_ttest [⟨1, "Man", 10⟩, ⟨2, "Kvinna", 20⟩, ⟨3, "Kvinna", 30⟩]).elim True (fun r =>
       r.t_stat = none ∧ r.p_val = none ∧
       ((male_data [⟨1, "Man", 10⟩, ⟨2, "Kvinna", 20⟩, ⟨3, "Kvinna", 30⟩]).length = 1 →
         r.manStats.std = 0) ∧
       ((female_data [⟨1, "Man", 10⟩, ⟨2, "Kvinna", 20⟩, ⟨3, "Kvinna", 30⟩]).length = 1 →
         r.kvinnaStats.std = 0))) :=
  ⟨⟨by decide, by decide, by decide, Or.inl (by decide)⟩,
    perform_ttest_singleton_nan [⟨1, "Man", 10⟩, ⟨2, "Kvinna", 20⟩, ⟨3, "Kvinna", 30⟩]
      (by decide) (by decide) (by decide) (Or.inl (by decide))⟩

/-- Helper: with at least 2 members the ddof=1 variance is the Bessel one. -/
theorem sampleVar_eq_bessel (xs : List ℚ) (h : 2 ≤ xs.length) :
    sampleVar xs = some (besselVar xs) := by
  rw [sampleVar, if_neg (not_lt.mpr h), besselVar]

/-- Helper: the embedded scipy call produces exactly the spec's Welch
statistic and two-sided p-value when both groups have ≥ 2 members and the
combined scaled variance does not vanish. -/
theorem ttest_ind_welch_eq (xs ys : List ℚ) (hx : 2 ≤ xs.length)
    (hy : 2 ≤ ys.length)
    (h : besselVar xs / (xs.length : ℚ) + besselVar ys / (ys.length : ℚ) ≠ 0) :
    ttest_ind_welch xs ys = (some (welchT_spec xs ys), some (pValue_spec xs ys)) := by
  unfold ttest_ind_welch
  rw [sampleVar_eq_bessel xs hx, sampleVar_eq_bessel ys hy]
  dsimp only
  rw [if_neg h]
  rw [pValue_spec, welchT_spec, welchDF_spec]

/-- C2: whenever both recognized groups have at least 2 rows (so the Welch
statistic is defined) and the scaled variances do not both vanish, the
computed t statistic is the spec's
`(mean1 − mean2) / sqrt(var1/n1 + var2/n2)` with ddof=1 variances, and the
p-value is the two-sided Student-t tail probability of `|t|` at the
Welch–Satterthwaite degrees of freedom. -/
theorem perform_ttest_welch_spec (l : List Obs)
    (hm : 2 ≤ (male_data l).length) (hf : 2 ≤ (female_data l).length)
    (hv : besselVar (male_data l) / ((male_data l).length : ℚ)
        + besselVar (female_data l) / ((female_data l).length : ℚ) ≠ 0) :
    (perform_ttest l).isSome = true ∧
    (perform_ttest l).elim True (fun r =>
      r.t_stat = some (welchT_spec (male_data l) (female_data l)) ∧
      r.p_val = some (pValue_spec (male_data l) (female_data l))) := by
  have hlen : (male_data l).length ≤ l.length := by
    rw [male_data, List.length_map]
    exact List.length_filter_le _ l
  have hn1 : ¬l.length < 2 := not_lt.mpr (le_trans hm hlen)
  have hn2 : ¬((male_data l).length = 0 ∨ (female_data l).length = 0) := by
    rintro (h | h) <;> omega
  rw [perform_ttest_eq_some l hn1 hn2, ttest_ind_welch_eq _ _ hm hf hv]
  exact ⟨rfl, rfl, rfl⟩

/-- Witness for `perform_ttest_welch_spec` on Scenario A's store. -/
theorem perform_ttest_welch_spec_witness :
    (2 ≤ (male_data scenarioA.data).length ∧
     2 ≤ (female_data scenarioA.data).length ∧
     besselVar (male_data scenarioA.data) / ((male_data scenarioA.data).length : ℚ)
        + besselVar (female_data scenarioA.data) / ((female_data scenarioA.data).length : ℚ) ≠ 0) ∧
    ((perform_ttest scenarioA.data).isSome = true ∧
     (perform_ttest scenarioA.data).elim True (fun r =>
       r.t_stat = some (welchT_spec (male_data scenarioA.data) (female_data scenarioA.data)) ∧
       r.p_val = some (pValue_spec (male_data scenarioA.data) (female_data scenarioA.data)))) := by
  have hm : male_data scenarioA.data = [45, 50] := by decide
  have hf : female_data scenarioA.data = [80, 90] := by decide
  have hv : besselVar (male_data scenarioA.data) / ((male_data scenarioA.data).length : ℚ)
      + besselVar (female_data scenarioA.data) / ((female_data scenarioA.data).length : ℚ) ≠ 0 := by
    rw [hm, hf]
    norm_num [besselVar, sqDevSum, meanQ]
  exact ⟨⟨by rw [hm]; norm_num, by rw [hf]; norm_num, hv⟩,
    perform_ttest_welch_spec scenarioA.data
      (by rw [hm]; norm_num) (by rw [hf]; norm_num) hv⟩

/-- Helper: swapping labels keeps the measurement. -/
theorem swapObs_time (o : Obs) : (swapObs o).time = o.time := rfl

/-- Helper: after the swap, an observation matches "Man" exactly when it
originally matched "Kvinna". -/
theorem swapObs_gender_man (o : Obs) :
    ((swapObs o).gender == "Man") = (o.gender == "Kvinna") := by
  by_cases h1 : o.gender = "Man"
  · have hg : (swapObs o).gender = "Kvinna" := by simp [swapObs, h1]
    rw [hg, h1]
    decide
  · by_cases h2 : o.gender = "Kvinna"
    · have hg : (swapObs o).gender = "Man" := by simp [swapObs, h1, h2]
      rw [hg, h2]
      decide
    · have hg : (swapObs o).gender = o.gender := by simp [swapObs, h1, h2]
      rw [hg, beq_eq_false_iff_ne.mpr h1, beq_eq_false_iff_ne.mpr h2]

/-- Helper: after the swap, an observation matches "Kvinna" exactly when it
originally matched "Man". -/
theorem swapObs_gender_kvinna (o : Obs) :
    ((swapObs o).gender == "Kvinna") = (o.gender == "Man") := by
  by_cases h1 : o.gender = "Man"
  · have hg : (swapObs o).gender = "Kvinna" := by simp [swapObs, h1]
    rw [hg, h1]
    decide
  · by_cases h2 : o.gender = "Kvinna"
    · have hg : (swapObs o).gender = "Man" := by simp [swapObs, h1, h2]
      rw [hg, h2]
      decide
    · have hg : (swapObs o).gender = o.gender := by simp [swapObs, h1, h2]
      rw [hg, beq_eq_false_iff_ne.mpr h1, beq_eq_false_iff_ne.mpr h2]

/-- Helper: the "Man" value sequence of the swapped store is the original
"Kvinna" value sequence (order preserved). -/
theorem male_data_swap (l : List Obs) :
    male_data (l.map swapObs) = female_data l := by
  rw [male_data, female_data, List.filter_map, List.map_map]
  have hp : List.filter ((fun o => o.gender == "Man") ∘ swapObs) l
      = List.filter (fun o : Obs => o.gender == "Kvinna") l :=
    List.filter_congr (fun o _ => swapObs_gender_man o)
  rw [hp]
  exact List.map_congr_left (fun o _ => swapObs_time o)

/-- Helper: the "Kvinna" value sequence of the swapped store is the original
"Man" value sequence (order preserved). -/
theorem female_data_swap (l : List Obs) :
    female_data (l.map swapObs) = male_data l := by
  rw [female_data, male_data, List.filter_map, List.map_map]
  have hp : List.filter ((fun o => o.gender == "Kvinna") ∘ swapObs) l
      = List.filter (fun o : Obs => o.gender == "Man") l :=
    List.filter_congr (fun o _ => swapObs_gender_kvinna o)
  rw [hp]
  exact List.map_congr_left (fun o _ => swapObs_time o)

/-- Helper: exchanging the argument order of the embedded Welch test
negates the t statistic and keeps the p-value. -/
theorem ttest_ind_welch_swap (xs ys : List ℚ) :
    ttest_ind_welch ys xs
      = ((ttest_ind_welch xs ys).1.map (fun x => -x), (ttest_ind_welch xs ys).2) := by
  unfold ttest_ind_welch
  cases hx : sampleVar xs with
  | none => cases hy : sampleVar ys <;> rfl
  | some v1 =>
    cases hy : sampleVar ys with
    | none => rfl
    | some v2 =>
      dsimp only
      have ht : ((meanQ ys : ℚ) : ℝ) - ((meanQ xs : ℚ) : ℝ) = -(((meanQ xs : ℚ) : ℝ) - ((meanQ ys : ℚ) : ℝ)) :=
        (neg_sub _ _).symm
      rw [add_comm (v2 / ((ys.length : ℚ))) (v1 / ((xs.length : ℚ))), ht, neg_div, abs_neg]
      rw [add_comm ((v2 / ((ys.length : ℚ))) ^ 2 / ((ys.length : ℚ) - 1))
        ((v1 / ((xs.length : ℚ))) ^ 2 / ((xs.length : ℚ) - 1))]
      rfl

/-- C8: exchanging the two recognized labels on every row preserves whether
`perform_ttest` succeeds, negates the t statistic (`NaN` stays `NaN`), and
leaves the p-value unchanged. -/
theorem perform_ttest_swap_symmetry (l : List Obs) :
    (perform_ttest (l.map swapObs)).isSome = (perform_ttest l).isSome ∧
    (perform_ttest l).elim True (fun r =>
      (perform_ttest (l.map swapObs)).elim True (fun r2 =>
        r2.t_stat = r.t_stat.map (fun x => -x) ∧ r2.p_val = r.p_val)) := by
  have hml : male_data (l.map swapObs) = female_data l := male_data_swap l
  have hfl : female_data (l.map swapObs) = male_data l := female_data_swap l
  have hlen : (l.map swapObs).length = l.length := List.length_map _ _
  by_cases h1 : l.length < 2
  · have e1 : perform_ttest l = none := by
      unfold perform_ttest
      rw [if_pos h1]
    have e2 : perform_ttest (l.map swapObs) = none := by
      unfold perform_ttest
      rw [hlen, if_pos h1]
    rw [e1, e2]
    exact ⟨rfl, trivial⟩
  · by_cases h2 : (male_data l).length = 0 ∨ (female_data l).length = 0
    · have e1 : perform_ttest l = none := by
        unfold perform_ttest
        rw [if_neg h1, if_pos h2]
      have h2s : (male_data (l.map swapObs)).length = 0 ∨
          (female_data (l.map swapObs)).length = 0 := by
        rw [hml, hfl]
        exact h2.symm
      have e2 : perform_ttest (l.map swapObs) = none := by
        unfold perform_ttest
        rw [hlen, if_neg h1, if_pos h2s]
      rw [e1, e2]
      exact ⟨rfl, trivial⟩
    · have h2s : ¬((male_data (l.map swapObs)).length = 0 ∨
          (female_data (l.map swapObs)).length = 0) := by
        rw [hml, hfl]
        exact fun h => h2 h.symm
      have h1s : ¬(l.map swapObs).length < 2 := by
        rw [hlen]
        exact h1
      rw [perform_ttest_eq_some l h1 h2, perform_ttest_eq_some (l.map swapObs) h1s h2s]
      refine ⟨rfl, ?_, ?_⟩
      · show (ttest_ind_welch (male_data (l.map swapObs)) (female_data (l.map swapObs))).1
            = (ttest_ind_welch (male_data l) (female_data l)).1.map (fun x => -x)
        rw [hml, hfl, ttest_ind_welch_swap]
      · show (ttest_ind_welch (male_data (l.map swapObs)) (female_data (l.map swapObs))).2
            = (ttest_ind_welch (male_data l) (female_data l)).2
        rw [hml, hfl, ttest_ind_welch_swap]
